import Mathlib

/-!
Verification development for the `pairing-verifier` repository.

The repository's `script/constants.py` builds, with `py_ecc.bn128`, the
fixture constants of a Groth16-style pairing check over the BN254 (alt_bn128)
curve: the proof points `A1, B2, C1`, the verification-key points
`a1, b2, g2, D2`, and the folded public-input reference points
`x1_G1, x2_G1, x3_G1`.  We embed the `py_ecc.bn128.bn128_curve` operations the
script calls (`neg`, `multiply`, the generators `G1`, `G2`, `curve_order`) as
executable Lean functions over `Nat`, with every base-field element kept
reduced modulo the field modulus.
-/

set_option maxRecDepth 200000

namespace PairingVerifier

/-- The BN254 base field modulus (`py_ecc.bn128` `field_modulus`). -/
def fieldModulus : Nat :=
  21888242871839275222246405745257275088696311157297823662689037894645226208583

/-- The BN254 group order (`py_ecc.bn128` `curve_order`), a prime. -/
def curve_order : Nat :=
  21888242871839275222246405745257275088548364400416034343698204186575808495617

/-- Base-field addition: `(a + b) mod p`. -/
def addF (a b : Nat) : Nat := (a + b) % fieldModulus

/-- Base-field multiplication: `(a * b) mod p`. -/
def mulF (a b : Nat) : Nat := a * b % fieldModulus

/-- Base-field negation: `(p - a mod p) mod p`. -/
def negF (a : Nat) : Nat := (fieldModulus - a % fieldModulus) % fieldModulus

/-- Base-field subtraction: `a - b` computed as `a + (-b)` modulo `p`. -/
def subF (a b : Nat) : Nat := (a + (fieldModulus - b % fieldModulus)) % fieldModulus

/-- Strictness combinator: forces a `Nat` to a literal (by matching on its
constructor form) before passing it on.  Semantically the identity,
`seqNat x k = k x`; it only keeps kernel reduction shallow during the large
concrete curve computations below. -/
def seqNat {α : Sort u} (x : Nat) (k : Nat → α) : α :=
  match x with
  | 0 => k 0
  | a + 1 => k (a + 1)

/-- Binary modular exponentiation, tail-recursive with an accumulator and
explicit fuel (the fuel bounds the bit length of the exponent; `255` covers
every exponent below `2^255`). -/
def powFAux : Nat → Nat → Nat → Nat → Nat
  | 0, _, _, acc => acc
  | f + 1, b, e, acc =>
    if e = 0 then acc
    else
      seqNat (mulF b b) fun b2 =>
      seqNat (if e % 2 = 1 then mulF acc b else acc) fun acc2 =>
      powFAux f b2 (e / 2) acc2

/-- Base-field inverse.  `py_ecc` computes `prime_field_inv` by the extended
Euclid algorithm; on the prime field this is the same function as Fermat
exponentiation `a ^ (p - 2) mod p`, which we use here.  Like `py_ecc`, it maps
`0` to `0`. -/
def invF (a : Nat) : Nat := powFAux 255 (a % fieldModulus) (fieldModulus - 2) 1

/-- Base-field division, as in `py_ecc`'s `FQ.__truediv__`: multiply by the
modular inverse (division by zero yields `0`, as `prime_field_inv 0 = 0`). -/
def divF (a b : Nat) : Nat := mulF a (invF b)

/-- A point of the BN254 `G1` group in affine coordinates over the base field,
with `none` the point at infinity (`py_ecc` uses `None`). -/
abbrev G1Point := Option (Nat × Nat)

/-- The `G1` generator `(1, 2)` (`py_ecc.bn128` `G1`). -/
def G1 : G1Point := some (1, 2)

/-- Point doubling in `G1`, after `py_ecc.bn128.bn128_curve.double`:
`m = 3x^2 / 2y`, `x' = m^2 - 2x`, `y' = -m x' + m x - y`. -/
def doubleG1 : G1Point → G1Point
  | none => none
  | some (x, y) =>
    seqNat (divF (mulF 3 (mulF x x)) (mulF 2 y)) fun m =>
    seqNat (subF (mulF m m) (mulF 2 x)) fun nx =>
    seqNat (addF (subF (mulF m x) (mulF m nx)) (negF y)) fun ny =>
    some (nx, ny)

/-- Point addition in `G1`, after `py_ecc.bn128.bn128_curve.add`. -/
def addG1 : G1Point → G1Point → G1Point
  | none, p2 => p2
  | p1, none => p1
  | some (x1, y1), some (x2, y2) =>
    if x2 = x1 ∧ y2 = y1 then doubleG1 (some (x1, y1))
    else if x2 = x1 then none
    else
      seqNat (divF (subF y2 y1) (subF x2 x1)) fun m =>
      seqNat (subF (mulF m m) (addF x1 x2)) fun nx =>
      seqNat (addF (subF (mulF m x1) (mulF m nx)) (negF y1)) fun ny =>
      some (nx, ny)

/-- Scalar multiplication in `G1` by double-and-add, after
`py_ecc.bn128.bn128_curve.multiply`, with explicit fuel bounding the bit
length of the scalar. -/
def multiplyG1Aux : Nat → G1Point → Nat → G1Point
  | 0, _, _ => none
  | f + 1, pt, n =>
    if n = 0 then none
    else if n = 1 then pt
    else if n % 2 = 0 then multiplyG1Aux f (doubleG1 pt) (n / 2)
    else addG1 (multiplyG1Aux f (doubleG1 pt) (n / 2)) pt

/-- `multiply(pt, n)` from `py_ecc.bn128.bn128_curve` (fuel `256` covers every
scalar below `2^256`, in particular everything below `curve_order`). -/
def multiplyG1 (pt : G1Point) (n : Nat) : G1Point := multiplyG1Aux 256 pt n

/-- Point negation in `G1`, after `py_ecc.bn128.bn128_curve.neg`:
`(x, y) ↦ (x, -y)`. -/
def negG1 : G1Point → G1Point
  | none => none
  | some (x, y) => some (x, negF y)

/-!
The quadratic extension field `FQ2 = F_p[i]/(i² + 1)`.  `py_ecc`'s `FQ2` has
`FQ2_MODULUS_COEFFS = (1, 0)`, i.e. the modulus polynomial is `i² + 1`, and an
element with coefficient tuple `(c0, c1)` denotes `c0 + c1·i`: the first
stored coefficient is the real part and the second the coefficient of `i`
(the imaginary part).
-/

/-- An element `c0 + c1·i` of `FQ2`, stored as `py_ecc` stores it:
first coefficient real, second imaginary. -/
abbrev Fq2 := Nat × Nat

/-- `FQ2` addition, coefficientwise. -/
def addFq2 (a b : Fq2) : Fq2 := (addF a.1 b.1, addF a.2 b.2)

/-- `FQ2` subtraction, coefficientwise. -/
def subFq2 (a b : Fq2) : Fq2 := (subF a.1 b.1, subF a.2 b.2)

/-- `FQ2` negation, coefficientwise. -/
def negFq2 (a : Fq2) : Fq2 := (negF a.1, negF a.2)

/-- `FQ2` multiplication: `(a0 + a1·i)(b0 + b1·i) = (a0·b0 − a1·b1) +
(a0·b1 + a1·b0)·i`, using `i² = −1`. -/
def mulFq2 (a b : Fq2) : Fq2 :=
  (subF (mulF a.1 b.1) (mulF a.2 b.2), addF (mulF a.1 b.2) (mulF a.2 b.1))

/-- Multiplication of an `FQ2` element by an integer scalar (py_ecc's
`int * FQ2`), coefficientwise. -/
def smulFq2 (k : Nat) (a : Fq2) : Fq2 := (mulF k a.1, mulF k a.2)

/-- `FQ2` inverse.  `py_ecc`'s `FQP.inv` runs the extended polynomial Euclid
algorithm; for the modulus `i² + 1` this is the same field function as the
conjugate-over-norm formula `(a0 − a1·i) / (a0² + a1²)` used here (and both
map `0` to `0`). -/
def invFq2 (a : Fq2) : Fq2 :=
  let d := invF (addF (mulF a.1 a.1) (mulF a.2 a.2))
  (mulF a.1 d, mulF (negF a.2) d)

/-- `FQ2` division: multiply by the inverse. -/
def divFq2 (a b : Fq2) : Fq2 := mulFq2 a (invFq2 b)

/-- Strictness combinator for `Fq2`, forcing both coefficients
(semantically the identity, see `seqFq2_eq`). -/
def seqFq2 {α : Sort u} (a : Fq2) (k : Fq2 → α) : α :=
  seqNat a.1 fun x => seqNat a.2 fun y => k (x, y)

/-- A point of the BN254 `G2` group in affine coordinates over `FQ2`, with
`none` the point at infinity. -/
abbrev G2Point := Option (Fq2 × Fq2)

/-- The `G2` generator (`py_ecc.bn128` `G2`), coefficients in `py_ecc`
storage order `(real, imaginary)`. -/
def G2 : G2Point :=
  some ((10857046999023057135944570762232829481370756359578518086990519993285655852781,
         11559732032986387107991004021392285783925812861821192530917403151452391805634),
        (8495653923123431417604973247489272438418190587263600148770280649306958101930,
         4082367875863433681332203403145435568316851327593401208105741076214120093531))

/-- The twisted curve coefficient `b2 = FQ2([3,0]) / FQ2([9,1])` from
`py_ecc.bn128.bn128_curve`: `G2` satisfies `y² = x³ + b2`. -/
def b2Coeff : Fq2 := divFq2 (3, 0) (9, 1)

/-- Point doubling in `G2` (same affine formulas as `doubleG1`, over `FQ2`). -/
def doubleG2 : G2Point → G2Point
  | none => none
  | some (x, y) =>
    seqFq2 (divFq2 (smulFq2 3 (mulFq2 x x)) (smulFq2 2 y)) fun m =>
    seqFq2 (subFq2 (mulFq2 m m) (smulFq2 2 x)) fun nx =>
    seqFq2 (addFq2 (subFq2 (mulFq2 m x) (mulFq2 m nx)) (negFq2 y)) fun ny =>
    some (nx, ny)

/-- Point addition in `G2` (same affine formulas as `addG1`, over `FQ2`). -/
def addG2 : G2Point → G2Point → G2Point
  | none, p2 => p2
  | p1, none => p1
  | some (x1, y1), some (x2, y2) =>
    if x2 = x1 ∧ y2 = y1 then doubleG2 (some (x1, y1))
    else if x2 = x1 then none
    else
      seqFq2 (divFq2 (subFq2 y2 y1) (subFq2 x2 x1)) fun m =>
      seqFq2 (subFq2 (mulFq2 m m) (addFq2 x1 x2)) fun nx =>
      seqFq2 (addFq2 (subFq2 (mulFq2 m x1) (mulFq2 m nx)) (negFq2 y1)) fun ny =>
      some (nx, ny)

/-- Scalar multiplication in `G2` by double-and-add, mirroring
`py_ecc.bn128.bn128_curve.multiply` with explicit fuel. -/
def multiplyG2Aux : Nat → G2Point → Nat → G2Point
  | 0, _, _ => none
  | f + 1, pt, n =>
    if n = 0 then none
    else if n = 1 then pt
    else if n % 2 = 0 then multiplyG2Aux f (doubleG2 pt) (n / 2)
    else addG2 (multiplyG2Aux f (doubleG2 pt) (n / 2)) pt

/-- `multiply(pt, n)` on `G2`. -/
def multiplyG2 (pt : G2Point) (n : Nat) : G2Point := multiplyG2Aux 256 pt n

/-- Point negation in `G2`: `(x, y) ↦ (x, -y)`. -/
def negG2 : G2Point → G2Point
  | none => none
  | some (x, y) => some (x, negFq2 y)

/-- `py_ecc`'s `is_on_curve(pt, b)` for `G1`: the point at infinity counts as
on-curve, and an affine point must satisfy `y² − x³ = b` with `b = 3`. -/
def onCurveG1 : G1Point → Prop
  | none => True
  | some (x, y) => subF (mulF y y) (mulF x (mulF x x)) = 3

instance : DecidablePred onCurveG1 := by
  intro P
  cases P with
  | none => exact .isTrue trivial
  | some q => cases q with | mk x y => exact inferInstanceAs (Decidable (_ = _))

/-- `py_ecc`'s `is_on_curve(pt, b2)` for `G2`: `y² − x³ = b2` over `FQ2`. -/
def onCurveG2 : G2Point → Prop
  | none => True
  | some (x, y) => subFq2 (mulFq2 y y) (mulFq2 x (mulFq2 x x)) = b2Coeff

instance : DecidablePred onCurveG2 := by
  intro P
  cases P with
  | none => exact .isTrue trivial
  | some q => cases q with | mk x y => exact inferInstanceAs (Decidable (_ = _))

/-- Membership in the cyclic subgroup generated by the `G1` generator (the
prime-order subgroup the scheme uses). -/
def inG1Subgroup (P : G1Point) : Prop := ∃ m : Nat, P = multiplyG1 G1 m

/-- Membership in the cyclic subgroup generated by the `G2` generator (the
prime-order subgroup the scheme uses). -/
def inG2Subgroup (P : G2Point) : Prop := ∃ m : Nat, P = multiplyG2 G2 m

/-!
The fixture constants of `script/constants.py`: scalar seeds, the proof
points, the verification-key points, and the reference public-input points.
-/

/-- Proof seed `_A1 = 1`. -/
def scalarA1 : Nat := 1
/-- Proof seed `_B2 = 1`. -/
def scalarB2 : Nat := 1
/-- Proof seed `_C1 = 1`. -/
def scalarC1 : Nat := 1
/-- Verification-key seed `_a1 = 1`. -/
def scalarAlpha1 : Nat := 1
/-- Verification-key seed `_b2 = 1`. -/
def scalarBeta2 : Nat := 1
/-- Verification-key seed `_g2 = 1`. -/
def scalarGamma2 : Nat := 1
/-- Verification-key seed `_D2 = 1` (the point is negated, the scalar is not). -/
def scalarDelta2 : Nat := 1
/-- Public input `_x1 = 2`. -/
def scalarX1 : Nat := 2
/-- Public input `_x2 = 3`. -/
def scalarX2 : Nat := 3
/-- Public input `_x3 = 4`, used with point negation to express `x3 = -4`. -/
def scalarX3 : Nat := 4

/-- Proof point `A1 = multiply(G1, _A1)`. -/
def A1 : G1Point := multiplyG1 G1 scalarA1
/-- Proof point `B2 = multiply(G2, _B2)`. -/
def B2 : G2Point := multiplyG2 G2 scalarB2
/-- Proof point `C1 = multiply(G1, _C1)`. -/
def C1 : G1Point := multiplyG1 G1 scalarC1

/-- Verification-key point `a1 = multiply(G1, _a1)` (alpha1). -/
def a1 : G1Point := multiplyG1 G1 scalarAlpha1
/-- Verification-key point `b2 = multiply(G2, _b2)` (beta2). -/
def b2 : G2Point := multiplyG2 G2 scalarBeta2
/-- Verification-key point `g2 = multiply(G2, _g2)` (gamma2). -/
def g2 : G2Point := multiplyG2 G2 scalarGamma2
/-- Verification-key point `D2 = neg(multiply(G2, _D2))` (delta2, negated). -/
def D2 : G2Point := negG2 (multiplyG2 G2 scalarDelta2)

/-- Reference public-input point `x1_G1 = multiply(G1, _x1)`. -/
def x1_G1 : G1Point := multiplyG1 G1 scalarX1
/-- Reference public-input point `x2_G1 = multiply(G1, _x2)`. -/
def x2_G1 : G1Point := multiplyG1 G1 scalarX2
/-- Reference public-input point `x3_G1 = neg(multiply(G1, _x3))`: the
negative input `x3 = -4` expressed via point negation. -/
def x3_G1 : G1Point := negG1 (multiplyG1 G1 scalarX3)

/-!
The public-input folder and the verifier.  The Vyper `Verifier` contract that
computes `X1` on-chain and runs the pairing check is not part of the
repository sources (only `script/constants.py` and `script/deploy.py` are),
so these two are modelled from the spec.
-/

/-- Modelled from the spec: the Public-Input Folder (§4.1), which is computed
in the missing `Verifier` contract.  A designated negative-sign input (a
negative integer) contributes `negate(scalar_mult(G1, |input|))`; a
non-negative input contributes `scalar_mult(G1, input)`.  The contributions
are summed with group addition, the empty sequence folding to the `G1`
identity (the point at infinity). -/
def contribution (s : Int) : G1Point :=
  if s < 0 then negG1 (multiplyG1 G1 s.natAbs) else multiplyG1 G1 s.toNat

/-- Modelled from the spec: `fold(inputs) = Σᵢ inputs[i]·G1`, each input
contributed per `contribution`. -/
def fold (inputs : List Int) : G1Point :=
  inputs.foldl (fun acc s => addG1 acc (contribution s)) none

/-- The scenario's public inputs `x1 = 2`, `x2 = 3`, `x3 = -4`
(the negative one expressed via point negation inside `fold`). -/
def scenarioInputs : List Int := [2, 3, -4]

/-- A proof `(A1, B2, C1)` as the spec's §3 data model describes it. -/
structure Proof where
  A1 : G1Point
  B2 : G2Point
  C1 : G1Point

/-- The verification key `(alpha1, beta2, gamma2, delta2)` of §3. -/
structure VerificationKey where
  alpha1 : G1Point
  beta2 : G2Point
  gamma2 : G2Point
  delta2 : G2Point

/-- The fixture proof the script builds: `(A1, B2, C1)`. -/
def fixtureProof : Proof := ⟨A1, B2, C1⟩

/-- The fixture verification key the script builds:
`(a1, b2, g2, D2)` = `(alpha1, beta2, gamma2, delta2)`. -/
def fixtureVK : VerificationKey := ⟨a1, b2, g2, D2⟩

/-- Modelled from the spec: the Pairing Equation Evaluator (§4.2), which
lives in the missing `Verifier` contract.  The pairing itself is the external
arithmetic primitive (out of scope per §1), so it is a parameter: a map
`e : G1 × G2 → T` into a commutative target group.  `check` forms the product
`e(-A1, B2) · e(alpha1, beta2) · e(X1, gamma2) · e(C1, delta2)` and compares
it with the multiplicative identity of the target group. -/
def check {T : Type u} [CommGroup T] [DecidableEq T]
    (e : G1Point → G2Point → T) (pr : Proof) (X1 : G1Point)
    (vk : VerificationKey) : Bool :=
  decide (e (negG1 pr.A1) pr.B2 * e vk.alpha1 vk.beta2 * e X1 vk.gamma2
    * e pr.C1 vk.delta2 = 1)

/-- Modelled from the spec: the Verifier (§4.3): fold the public inputs into
`X1`, then run the pairing check against the verification key. -/
def verify {T : Type u} [CommGroup T] [DecidableEq T]
    (e : G1Point → G2Point → T) (pr : Proof) (inputs : List Int)
    (vk : VerificationKey) : Bool :=
  check e pr (fold inputs) vk

/-!
The printed output of `script/constants.py`.  The script prints each `G2`
point with a bare f-string, so each `FQ2` coordinate appears as `py_ecc`'s
`repr` of its coefficient tuple — storage order `(c0, c1)`, i.e.
`(real, imaginary)`.  The comment above the prints documents the opposite
convention, `((x_im, x_re), (y_im, y_re))`.
-/

/-- The coefficient pair of an `FQ2` element as the script prints it:
`py_ecc` storage order, real part first. -/
def printedFq2 (a : Fq2) : Nat × Nat := (a.1, a.2)

/-- The real part (the coefficient of `1`) of an `FQ2` element. -/
def rePart (a : Fq2) : Nat := a.1

/-- The imaginary part (the coefficient of `i`, where `i² = −1`) of an
`FQ2` element. -/
def imPart (a : Fq2) : Nat := a.2

/-- The coefficient pair of an `FQ2` element in the convention the script's
comment documents: imaginary part first. -/
def documentedFq2 (a : Fq2) : Nat × Nat := (imPart a, rePart a)

/-- A `G2` point as the script prints it: both coordinates in `py_ecc`
storage order. -/
def printedG2 (P : G2Point) : Option ((Nat × Nat) × (Nat × Nat)) :=
  P.map fun q => (printedFq2 q.1, printedFq2 q.2)

/-- A `G2` point in the documented `((x_im, x_re), (y_im, y_re))` order. -/
def documentedG2 (P : G2Point) : Option ((Nat × Nat) × (Nat × Nat)) :=
  P.map fun q => (documentedFq2 q.1, documentedFq2 q.2)

/-!
`script/deploy.py`.  `Verifier.deploy()` is an external call (the `Verifier`
contract and `moccasin` are not under the repository's script sources), so it
is modelled as a parameter: an interpreter mapping the one external action to
a contract value.  Each function returns its value together with the trace of
external actions it performed.
-/

/-- The external actions `script/deploy.py` can perform. -/
inductive DeployAction where
  | deployVerifier
  deriving DecidableEq, Repr

/-- `deploy()`: one `Verifier.deploy()` call, whose result is returned
unmodified. -/
def deploy {C : Type u} (interp : DeployAction → C) : C × List DeployAction :=
  (interp .deployVerifier, [.deployVerifier])

/-- `moccasin_main()`: returns `deploy()`. -/
def moccasin_main {C : Type u} (interp : DeployAction → C) :
    C × List DeployAction :=
  deploy interp

/-!
A concrete instantiation of the pairing parameter, used to witness the
abstract pairing-check theorem: a map `G1 × G2 → Multiplicative (ZMod r)`
that inverts whenever either argument is negated (the slice of bilinearity
the scenario proof needs).  It sends a point with affine `y`-coordinate `y`
to `y − p/2` in `ZMod r` (and the point at infinity to `0`), so that point
negation `y ↦ p − y` becomes negation in `ZMod r`.
-/

/-- Half the field modulus in `ZMod curve_order`: the class of
`(p + r) / 2`, so that `2 · halfP = p` in `ZMod r`. -/
def halfP : ZMod curve_order := (((fieldModulus + curve_order) / 2 : Nat) : ZMod curve_order)

/-- `y ↦ y − p/2` on nonzero residues, `0 ↦ 0`; satisfies
`phiCoord (negF y) = -phiCoord y`. -/
def phiCoord (y : Nat) : ZMod curve_order :=
  if y % fieldModulus = 0 then 0
  else ((y % fieldModulus : Nat) : ZMod curve_order) - halfP

/-- The `G1` leg of the witness pairing: `phiCoord` of the `y`-coordinate. -/
def phiG1 : G1Point → ZMod curve_order
  | none => 0
  | some (_, y) => phiCoord y

/-- `phiCoord` summed over the two coefficients of an `FQ2` element. -/
def phiFq2 (a : Fq2) : ZMod curve_order := phiCoord a.1 + phiCoord a.2

/-- The `G2` leg of the witness pairing: `phiFq2` of the `y`-coordinate. -/
def phiG2 : G2Point → ZMod curve_order
  | none => 0
  | some (_, y) => phiFq2 y

/-- The witness pairing into `Multiplicative (ZMod curve_order)`:
`e(P, Q) = ofAdd (phiG1 P · phiG2 Q)`. -/
def ePairing (P : G1Point) (Q : G2Point) : Multiplicative (ZMod curve_order) :=
  Multiplicative.ofAdd (phiG1 P * phiG2 Q)

/-! ### Theorems -/

theorem seqNat_eq {α : Sort u} (x : Nat) (k : Nat → α) : seqNat x k = k x := by
  cases x <;> rfl

theorem seqFq2_eq {α : Sort u} (a : Fq2) (k : Fq2 → α) : seqFq2 a k = k a := by
  cases a; simp [seqFq2, seqNat_eq]

theorem fieldModulus_pos : 0 < fieldModulus := by decide

theorem two_mul_halfP : (2 : ZMod curve_order) * halfP = (fieldModulus : ZMod curve_order) := by
  have h2 : 2 * ((fieldModulus + curve_order) / 2) = fieldModulus + curve_order := by decide
  have : (2 : ZMod curve_order) * halfP
      = ((2 * ((fieldModulus + curve_order) / 2) : Nat) : ZMod curve_order) := by
    rw [halfP]; push_cast; ring
  rw [this, h2]
  push_cast
  simp [ZMod.natCast_self]

theorem phiCoord_negF (y : Nat) : phiCoord (negF y) = - phiCoord y := by
  by_cases h : y % fieldModulus = 0
  · have hneg : negF y = 0 := by
      rw [negF, h, Nat.sub_zero, Nat.mod_self]
    rw [hneg, phiCoord, phiCoord, h]
    simp
  · have hlt : y % fieldModulus < fieldModulus := Nat.mod_lt _ fieldModulus_pos
    have hsublt : fieldModulus - y % fieldModulus < fieldModulus := by omega
    have hsubpos : 0 < fieldModulus - y % fieldModulus := by omega
    have hneg : negF y = fieldModulus - y % fieldModulus := by
      rw [negF, Nat.mod_eq_of_lt hsublt]
    rw [hneg, phiCoord, phiCoord]
    rw [Nat.mod_eq_of_lt hsublt]
    rw [if_neg (by omega), if_neg h]
    have hcast : ((fieldModulus - y % fieldModulus : Nat) : ZMod curve_order)
        = (fieldModulus : ZMod curve_order) - ((y % fieldModulus : Nat) : ZMod curve_order) := by
      rw [Nat.cast_sub (Nat.le_of_lt hlt)]
    rw [hcast, ← two_mul_halfP]
    ring

theorem phiG1_neg (P : G1Point) : phiG1 (negG1 P) = - phiG1 P := by
  cases P with
  | none => simp [phiG1, negG1]
  | some q =>
    cases q with
    | mk x y => simpa [phiG1, negG1] using phiCoord_negF y

theorem phiFq2_neg (a : Fq2) : phiFq2 (negFq2 a) = - phiFq2 a := by
  cases a with
  | mk a0 a1 =>
    simp only [phiFq2, negFq2, phiCoord_negF]
    ring

theorem phiG2_neg (Q : G2Point) : phiG2 (negG2 Q) = - phiG2 Q := by
  cases Q with
  | none => simp [phiG2, negG2]
  | some q =>
    cases q with
    | mk x y => simpa [phiG2, negG2] using phiFq2_neg y

theorem ePairing_negG1 (P : G1Point) (Q : G2Point) :
    ePairing (negG1 P) Q = (ePairing P Q)⁻¹ := by
  rw [ePairing, ePairing, phiG1_neg, ← ofAdd_neg]
  ring_nf

theorem ePairing_negG2 (P : G1Point) (Q : G2Point) :
    ePairing P (negG2 Q) = (ePairing P Q)⁻¹ := by
  rw [ePairing, ePairing, phiG2_neg, ← ofAdd_neg]
  ring_nf

/-!
Four concrete large scalar multiplications, proved once by kernel evaluation
and shared below: the order-complement forms of the two negated points, and
the fact that both generators are killed by the group order (the standard
prime-order-subgroup check).
-/

set_option maxHeartbeats 8000000 in
theorem mulG1_orderSub4 :
    multiplyG1 G1 (curve_order - 4) = negG1 (multiplyG1 G1 4) := by
  decide -- heavy

set_option maxHeartbeats 8000000 in
theorem mulG1_order : multiplyG1 G1 curve_order = none := by
  decide -- heavy

set_option maxHeartbeats 8000000 in
theorem mulG2_orderSub1 :
    multiplyG2 G2 (curve_order - 1) = negG2 G2 := by
  decide -- heavy

set_option maxHeartbeats 8000000 in
theorem mulG2_order : multiplyG2 G2 curve_order = none := by
  decide -- heavy

/-- Shared evaluation: the scenario fold, contribution by contribution. -/
theorem fold_scenario_eval :
    fold [2, 3, -4]
      = addG1 (addG1 (addG1 none (multiplyG1 G1 2)) (multiplyG1 G1 3))
          (negG1 (multiplyG1 G1 4)) := by
  have h2 : contribution 2 = multiplyG1 G1 2 := by decide
  have h3 : contribution 3 = multiplyG1 G1 3 := by decide
  have h4 : contribution (-4) = negG1 (multiplyG1 G1 4) := by decide
  simp only [fold, List.foldl, h2, h3, h4]

/-- Shared evaluation: the fold with `curve_order - 4` passed as a raw
positive scalar in the last slot. -/
theorem fold_rawform_eval :
    fold [2, 3, ((curve_order - 4 : Nat) : Int)]
      = addG1 (addG1 (addG1 none (multiplyG1 G1 2)) (multiplyG1 G1 3))
          (multiplyG1 G1 (curve_order - 4)) := by
  have h2 : contribution 2 = multiplyG1 G1 2 := by decide
  have h3 : contribution 3 = multiplyG1 G1 3 := by decide
  have h4 : contribution ((curve_order - 4 : Nat) : Int)
      = multiplyG1 G1 (curve_order - 4) := by
    rw [contribution, if_neg (not_lt.mpr (Int.natCast_nonneg _)), Int.toNat_natCast]
  simp only [fold, List.foldl, h2, h3, h4]

/-- C1: with the fixture constants (`alpha1 = A1 = C1 = 1·G1`,
`beta2 = gamma2 = B2 = 1·G2`, `delta2 = neg(1·G2)`) and public inputs
`x1 = 2`, `x2 = 3`, `x3 = -4` expressed via point negation, the four-pairing
product `e(-A1, B2) · e(alpha1, beta2) · e(X1, gamma2) · e(C1, delta2)`
equals the multiplicative identity of the target group, so `verify` returns
`true` — for every pairing `e` into a commutative group that turns the
negation of either operand into inversion (the slice of bilinearity the
reduction uses). -/
theorem verify_scenario_true {T : Type u} [CommGroup T] [DecidableEq T]
    (e : G1Point → G2Point → T)
    (hL : ∀ P Q, e (negG1 P) Q = (e P Q)⁻¹)
    (hR : ∀ P Q, e P (negG2 Q) = (e P Q)⁻¹) :
    verify e fixtureProof scenarioInputs fixtureVK = true := by
  have hfold : fold scenarioInputs = G1 := by decide
  have hA : fixtureProof.A1 = G1 := by decide
  have hB : fixtureProof.B2 = G2 := by decide
  have hC : fixtureProof.C1 = G1 := by decide
  have ha : fixtureVK.alpha1 = G1 := by decide
  have hb : fixtureVK.beta2 = G2 := by decide
  have hg : fixtureVK.gamma2 = G2 := by decide
  have hd : fixtureVK.delta2 = negG2 G2 := by decide
  simp only [verify, check, hfold, hA, hB, hC, ha, hb, hg, hd, hL, hR]
  rw [decide_eq_true_eq]
  group

/-- Witness for C1: the hypotheses of `verify_scenario_true` are satisfied by
the concrete map `ePairing` into `Multiplicative (ZMod curve_order)`. -/
theorem verify_scenario_true_witness :
    verify ePairing fixtureProof scenarioInputs fixtureVK = true :=
  verify_scenario_true ePairing ePairing_negG1 ePairing_negG2

/-- C2 counterexample: at the designated input `x3 = -4`, folding via point
negation and folding `curve_order - 4` as a raw positive scalar produce the
same `G1` element — the claimed divergence is false. -/
theorem fold_neg_eq_fold_raw :
    fold [2, 3, -4] = fold [2, 3, ((curve_order - 4 : Nat) : Int)] := by
  rw [fold_scenario_eval, fold_rawform_eval, mulG1_orderSub4]

/-- C2 (amended): the two forms coincide: `fold [2, 3, -4]` via point
negation equals `fold [2, 3, curve_order - 4]` with the raw positive scalar,
both yielding `1·G1`; the point-negation form is a convention about intent,
not an observable difference in the group element. -/
theorem fold_forms_coincide :
    fold [2, 3, -4] = fold [2, 3, ((curve_order - 4 : Nat) : Int)] ∧
    fold [2, 3, -4] = multiplyG1 G1 1 := by
  constructor
  · rw [fold_scenario_eval, fold_rawform_eval, mulG1_orderSub4]
  · decide

/-- C3: the verification-key construction produces exactly the four fixed
points by scalar-multiplying each generator by its (unit) scalar seed, with
`delta2` and only `delta2` additionally negated. -/
theorem vk_construction :
    a1 = multiplyG1 G1 1 ∧ multiplyG1 G1 1 = G1 ∧
    b2 = multiplyG2 G2 1 ∧ g2 = multiplyG2 G2 1 ∧ multiplyG2 G2 1 = G2 ∧
    D2 = negG2 (multiplyG2 G2 1) ∧
    D2 ≠ multiplyG2 G2 1 ∧
    a1 ≠ negG1 (multiplyG1 G1 1) ∧
    b2 ≠ negG2 (multiplyG2 G2 1) ∧
    g2 ≠ negG2 (multiplyG2 G2 1) := by
  decide

/-- C4: the public-input fold of the scenario inputs equals the generator:
each input contributes its scalar multiple of `G1` (the negative one as the
negated point), and the sum is `1·G1 = G1`. -/
theorem public_input_fold_scenario :
    x1_G1 = multiplyG1 G1 2 ∧ x2_G1 = multiplyG1 G1 3 ∧
    x3_G1 = negG1 (multiplyG1 G1 4) ∧
    fold scenarioInputs = addG1 (addG1 (addG1 none x1_G1) x2_G1) x3_G1 ∧
    fold scenarioInputs = multiplyG1 G1 1 ∧ multiplyG1 G1 1 = G1 := by
  decide

/-- C5: the script prints each `G2` coordinate in `py_ecc` storage order,
which is `(real, imaginary)` — `i = (0, 1)` is the square root of `-1`, so
the second stored coefficient is the imaginary part — and this differs, for
every `G2` point the script prints (`B2`, `b2`, `g2`, `D2`), from the
`((x_im, x_re), (y_im, y_re))` order the script's comment documents. -/
theorem printed_g2_coords_real_first :
    mulFq2 (0, 1) (0, 1) = negFq2 (1, 0) ∧
    printedG2 B2 = some
      ((10857046999023057135944570762232829481370756359578518086990519993285655852781,
        11559732032986387107991004021392285783925812861821192530917403151452391805634),
       (8495653923123431417604973247489272438418190587263600148770280649306958101930,
        4082367875863433681332203403145435568316851327593401208105741076214120093531)) ∧
    documentedG2 B2 = some
      ((11559732032986387107991004021392285783925812861821192530917403151452391805634,
        10857046999023057135944570762232829481370756359578518086990519993285655852781),
       (4082367875863433681332203403145435568316851327593401208105741076214120093531,
        8495653923123431417604973247489272438418190587263600148770280649306958101930)) ∧
    printedG2 B2 ≠ documentedG2 B2 ∧
    printedG2 b2 ≠ documentedG2 b2 ∧
    printedG2 g2 ≠ documentedG2 g2 ∧
    printedG2 D2 ≠ documentedG2 D2 := by
  decide

/-- C6: every point the script constructs for use in a pairing lies on its
curve and in the prime-order subgroup generated by the respective generator
(each point is an explicit scalar multiple of the generator, the negated ones
via the order-complement scalar); both generators are killed by the group
order. -/
theorem points_on_curve_and_in_subgroup :
    (onCurveG1 A1 ∧ inG1Subgroup A1) ∧
    (onCurveG2 B2 ∧ inG2Subgroup B2) ∧
    (onCurveG1 C1 ∧ inG1Subgroup C1) ∧
    (onCurveG1 a1 ∧ inG1Subgroup a1) ∧
    (onCurveG2 b2 ∧ inG2Subgroup b2) ∧
    (onCurveG2 g2 ∧ inG2Subgroup g2) ∧
    (onCurveG2 D2 ∧ inG2Subgroup D2) ∧
    (onCurveG1 x1_G1 ∧ inG1Subgroup x1_G1) ∧
    (onCurveG1 x2_G1 ∧ inG1Subgroup x2_G1) ∧
    (onCurveG1 x3_G1 ∧ inG1Subgroup x3_G1) ∧
    multiplyG1 G1 curve_order = none ∧
    multiplyG2 G2 curve_order = none := by
  have hD2 : D2 = negG2 G2 := by decide
  have hx3 : x3_G1 = negG1 (multiplyG1 G1 4) := by decide
  refine ⟨⟨by decide, scalarA1, rfl⟩, ⟨by decide, scalarB2, rfl⟩,
    ⟨by decide, scalarC1, rfl⟩, ⟨by decide, scalarAlpha1, rfl⟩,
    ⟨by decide, scalarBeta2, rfl⟩, ⟨by decide, scalarGamma2, rfl⟩,
    ⟨by decide, curve_order - 1, ?_⟩, ⟨by decide, scalarX1, rfl⟩,
    ⟨by decide, scalarX2, rfl⟩, ⟨by decide, curve_order - 4, ?_⟩,
    mulG1_order, mulG2_order⟩
  · rw [hD2, mulG2_orderSub1]
  · rw [hx3, mulG1_orderSub4]

/-- C7: every scalar the script uses or emits lies in `[0, curve_order)`:
the seeds `1`, the public inputs `2, 3, 4`, and the printed positive-form
input `curve_order - 4` (lower bound automatic over `Nat`). -/
theorem scalars_reduced :
    scalarA1 < curve_order ∧ scalarB2 < curve_order ∧ scalarC1 < curve_order ∧
    scalarAlpha1 < curve_order ∧ scalarBeta2 < curve_order ∧
    scalarGamma2 < curve_order ∧ scalarDelta2 < curve_order ∧
    scalarX1 < curve_order ∧ scalarX2 < curve_order ∧ scalarX3 < curve_order ∧
    curve_order - 4 < curve_order := by
  decide

/-- C8: negating the scalar-multiplied point equals scalar-multiplying by
the order-complement: `neg(4·G1) = (curve_order - 4)·G1`, so the reference
point `x3_G1` and the printed positive-form input denote the same group
element. -/
theorem neg_mult_eq_order_complement :
    negG1 (multiplyG1 G1 4) = multiplyG1 G1 (curve_order - 4) ∧
    x3_G1 = multiplyG1 G1 (curve_order - 4) := by
  have hx3 : x3_G1 = negG1 (multiplyG1 G1 4) := by decide
  exact ⟨mulG1_orderSub4.symm, by rw [hx3, mulG1_orderSub4]⟩

/-- C9: the fixture proof points coincide with the verification-key points
built from the same unit seeds: `A1 = C1 = a1 = G1` and `B2 = b2 = g2 = G2`
— the generated test key is degenerate. -/
theorem degenerate_fixture_points :
    A1 = C1 ∧ C1 = a1 ∧ a1 = G1 ∧ B2 = b2 ∧ b2 = g2 ∧ g2 = G2 := by
  decide

/-- C10: `moccasin_main()` returns exactly the value of `deploy()`, and
`deploy()` performs a single `Verifier.deploy()` call, returning the
resulting contract unmodified. -/
theorem moccasin_main_eq_deploy (γ : Type) (interp : DeployAction → γ) :
    moccasin_main interp = deploy interp ∧
    (deploy interp).1 = interp DeployAction.deployVerifier ∧
    (deploy interp).2 = [DeployAction.deployVerifier] :=
  ⟨rfl, rfl, rfl⟩

end PairingVerifier





